import Mathlib

/-!
Verification of the binance_trading repository: a shallow embedding of the
band calculator (src/indicators.py), the decision-engine state machine and
order helpers (src/engine.py), the trader call wrappers (src/trader.py) and
the daily-ledger upsert (src/db.py), with theorems checking the
natural-language specification against the code.

Prices, quantities and balances are modelled as exact rationals; timestamps
in milliseconds as integers; Python dicts (where only their truthiness
matters) by their key lists.
-/

namespace BinanceTrading

/- ===================== Band calculator (src/indicators.py) ===================== -/

/-- The trailing window of length `period`: the last `period` elements of the
close list.  This is the window of the last row of the pandas
`rolling(window=period)` in `bollinger_bands`. -/
def lastWindow (closes : List ℚ) (period : Nat) : List ℚ :=
  closes.drop (closes.length - period)

/-- Last value of `df.close.rolling(window=period).mean()` — the middle band
`mid` of `bollinger_bands` (src/indicators.py line 43). -/
def rollingMeanLast (closes : List ℚ) (period : Nat) : ℚ :=
  (lastWindow closes period).sum / (period : ℚ)

/-- Last value of the rolling variance with pandas divisor `period - ddof`
(the square of `df.close.rolling(window=period).std(ddof=ddof)`,
src/indicators.py line 46). -/
def rollingVarLast (closes : List ℚ) (period : Nat) (ddof : Nat) : ℚ :=
  ((lastWindow closes period).map
      (fun x => (x - rollingMeanLast closes period) ^ 2)).sum
    / ((period : ℚ) - (ddof : ℚ))

/-- Last value of the rolling standard deviation used by `bollinger_bands`. -/
noncomputable def rollingStdLast (closes : List ℚ) (period : Nat) (ddof : Nat) : ℝ :=
  Real.sqrt ((rollingVarLast closes period ddof : ℚ) : ℝ)

/-- Upper band `up = mid + (std * stds)` of `bollinger_bands`
(src/indicators.py line 49). -/
noncomputable def bollUpLast (closes : List ℚ) (period : Nat) (stds : ℚ) (ddof : Nat) : ℝ :=
  ((rollingMeanLast closes period : ℚ) : ℝ) + rollingStdLast closes period ddof * (stds : ℝ)

/-- Lower band `dn = mid - (std * stds)` of `bollinger_bands`
(src/indicators.py line 50). -/
noncomputable def bollDnLast (closes : List ℚ) (period : Nat) (stds : ℚ) (ddof : Nat) : ℝ :=
  ((rollingMeanLast closes period : ℚ) : ℝ) - rollingStdLast closes period ddof * (stds : ℝ)

/-- The adjusted close series built by `calculate_boll_dynamic`
(src/indicators.py lines 166-169): the close of the most recent (possibly
still open) bar is replaced by the current tick price. -/
def dynCalcCloses (closes : List ℚ) (current_price : ℚ) : List ℚ :=
  closes.dropLast ++ [current_price]

/-- The percentage gap `abs(current_price - last_close) / last_close * 100`
computed by `calculate_boll_dynamic` (src/indicators.py lines 160-163).
Note `last_close` is `df.close.iloc[-1]`, the close of the most recent
fetched bar (the still-open one), not the last closed bar. -/
def dynPriceChangePct (closes : List ℚ) (current_price : ℚ) : ℚ :=
  |current_price - closes.getLastD 0| / closes.getLastD 0 * 100

/-- Result of the dynamic band computation: the middle band, the reported gap
percentage, and whether the tick price was substituted into the series
(the code sets `method` unconditionally to real-time replacement). -/
structure DynBoll where
  mid : ℚ
  price_change_pct : ℚ
  substitutedTick : Bool
deriving DecidableEq

/-- Shallow embedding of the computation core of `calculate_boll_dynamic`
(src/indicators.py lines 160-188), restricted to the middle band, which is
rational-valued.  The function raises when fewer than `period` bars exist,
modelled by `none`. -/
def calculate_boll_dynamic (closes : List ℚ) (current_price : ℚ) (period : Nat) :
    Option DynBoll :=
  let price_change_pct := dynPriceChangePct closes current_price
  let df_calc := dynCalcCloses closes current_price
  if df_calc.length < period then none
  else some ⟨rollingMeanLast df_calc period, price_change_pct, true⟩

/-- Middle band of `calculate_boll_binance_compatible` (src/indicators.py
lines 95-103): the most recent (possibly open) bar is dropped
(`df_complete = df.iloc[:-1]`) and the band is computed on closed bars only.
This is also the computation the specification prescribes for the Dynamic
policy when the gap is large. -/
def closedBarsOnlyMid (closes : List ℚ) (period : Nat) : ℚ :=
  rollingMeanLast closes.dropLast period

/- ===================== Configuration (src/config.py) ===================== -/

/-- `config.TRADE_PERCENT = 0.7` (src/config.py line 27). -/
def TRADE_PERCENT : ℚ := 7 / 10

/-- `config.SYMBOL` default (src/config.py line 5). -/
def SYMBOL : String := "BTCUSDT"

/-- `Engine.trade_cooldown = 60000` milliseconds (src/engine.py line 68). -/
def tradeCooldown : ℤ := 60000

/- ===================== Python-value helpers ===================== -/

/-- Truthiness of a Python dict represented by its list of keys: a dict is
truthy exactly when it is non-empty. -/
def pyDictTruthy (keys : List String) : Bool := !keys.isEmpty

/-- Python banker rounding (round half to even) of an exact rational to an
integer. -/
def pyRoundHalfEven (x : ℚ) : ℤ :=
  if x - ⌊x⌋ < 1/2 then ⌊x⌋
  else if x - ⌊x⌋ > 1/2 then ⌊x⌋ + 1
  else if ⌊x⌋ % 2 = 0 then ⌊x⌋ else ⌊x⌋ + 1

/-- Python `round(x, 3)` on an exact rational. -/
def pyRound3 (x : ℚ) : ℚ := ((pyRoundHalfEven (x * 1000) : ℤ) : ℚ) / 1000

/- ===================== Positions and trader calls (src/trader.py) ===================== -/

/-- Position side as stored by `set_position`. -/
inductive Side
  | long
  | short
deriving DecidableEq

/-- A row of the `positions` table (one record per symbol). -/
structure Position where
  side : Side
  qty : ℚ
  entry_price : ℚ
  ts : ℤ
deriving DecidableEq

/-- Remote context of one `place_order` call: whether the client is missing,
whether `futures_create_order` raises, and the `avgPrice` field of the
exchange response when it succeeds. -/
structure OpenCallEnv where
  clientNone : Bool
  remoteFails : Bool
  avgPrice : ℚ
deriving DecidableEq

/-- Observables of one `place_order` call: the keys of the returned Python
dict (an error dict or the exchange response), whether `add_trade` ran, and
the position written by `set_position` (if reached). -/
structure OrderOutcome where
  retKeys : List String
  tradeAdded : Bool
  posSet : Option Position
deriving DecidableEq

/-- Shallow embedding of `Trader.place_order` (src/trader.py lines 105-163).
`price` is the optional price argument and `tickerPrice` the market price the
code would fetch when `avgPrice` is 0 and no price was provided.  Every path
returns a non-empty dict: an `error` dict on failure, the exchange response
on success. -/
def place_order (env : OpenCallEnv) (now : ℤ) (side : Side) (qty : ℚ)
    (price : Option ℚ) (tickerPrice : ℚ) : OrderOutcome :=
  if env.clientNone then ⟨["error"], false, none⟩
  else if pyRound3 qty < 1/1000 then ⟨["error"], false, none⟩
  else if env.remoteFails then ⟨["error"], false, none⟩
  else
    ⟨["orderId", "avgPrice"], true,
     some ⟨side, pyRound3 qty,
           (if env.avgPrice = 0 then
              (match price with
               | some p => p
               | none => tickerPrice)
            else env.avgPrice), now⟩⟩

/-- Remote context of one `close_all` call. -/
structure CloseCallEnv where
  clientNone : Bool
  remoteFails : Bool
  avgPrice : ℚ
  tickerPrice : ℚ
deriving DecidableEq

/-- Observables of one `close_all` call: the returned exit price (0 on any
failure path), whether the remote close order was attempted, whether the
closing trade was appended, and whether the position record was deleted. -/
structure CloseOutcome where
  exitPrice : ℚ
  orderCalled : Bool
  tradeAdded : Bool
  posCleared : Bool
deriving DecidableEq

/-- Shallow embedding of `Trader.close_all` (src/trader.py lines 165-230). -/
def close_all (env : CloseCallEnv) (pos : Option Position)
    (current_price : Option ℚ) : CloseOutcome :=
  match pos with
  | none => ⟨0, false, false, false⟩
  | some p =>
    if env.clientNone then ⟨0, false, false, false⟩
    else if pyRound3 p.qty < 1/1000 then ⟨0, false, false, false⟩
    else if env.remoteFails then ⟨0, true, false, false⟩
    else
      ⟨(if env.avgPrice = 0 then
          (match current_price with
           | some cp => cp
           | none => env.tickerPrice)
        else env.avgPrice), true, true, true⟩

/- ===================== Daily ledger (src/db.py, src/engine.py) ===================== -/

/-- A row of the `daily_profits` table after the migrations in `init_db`
(src/db.py lines 50-58 and 93-103).  `update_daily_profit` writes its
`profit` argument into the `profit` column. -/
structure DailyRow where
  trade_count : ℤ
  profit : ℚ
  profit_rate : ℚ
  loss_count : ℤ
  profit_count : ℤ
  total_fees : ℚ
  initial_balance : ℚ
deriving DecidableEq

/-- Shallow embedding of `Engine.get_daily_initial_balance` (src/engine.py
lines 131-139); `currentBalance` is the result of the `get_balance` call it
makes when no positive recorded opening balance exists. -/
def get_daily_initial_balance (daily : Option DailyRow) (currentBalance : ℚ) : ℚ :=
  match daily with
  | some d => if d.initial_balance > 0 then d.initial_balance else currentBalance
  | none => currentBalance

/-- Observables of one `close_and_update_profit` call: its boolean return
value, the `close_all` outcome when the trader was contacted, and the row
upserted by `update_daily_profit` when reached. -/
structure CloseUpdate where
  success : Bool
  closeOut : Option CloseOutcome
  stored : Option DailyRow
deriving DecidableEq

/-- Shallow embedding of `Engine.close_and_update_profit` (src/engine.py
lines 567-625) together with the `update_daily_profit` upsert (src/db.py
lines 243-262).  `pos` is the row read by `get_position`; `daily0` the row
read by `get_daily_profit`; `totalFees` the `SUM(fee)` of the date's trades
as returned by the SQL query (run after `close_all` appended the closing
trade); `balGdib`, `balFirst`, `balCur` the results of the three
`get_balance` calls on lines 138, 611 and 614. -/
def close_and_update_profit (pos : Option Position) (cenv : CloseCallEnv)
    (price : ℚ) (daily0 : Option DailyRow)
    (totalFees balGdib balFirst balCur : ℚ) : CloseUpdate :=
  match pos with
  | none => ⟨true, none, none⟩
  | some p =>
    let co := close_all cenv (some p) (some price)
    if co.exitPrice ≤ 0 then ⟨false, some co, none⟩
    else
      let this_profit := if p.side = Side.long
                         then (co.exitPrice - p.entry_price) * p.qty
                         else (p.entry_price - co.exitPrice) * p.qty
      let base := daily0.getD ⟨0, 0, 0, 0, 0, 0, 0⟩
      let trade_count := base.trade_count + 1
      let profitAcc := base.profit + this_profit
      let net_profit := profitAcc - totalFees
      let profit_count := if this_profit > 0 then base.profit_count + 1 else base.profit_count
      let loss_count := if this_profit < 0 then base.loss_count + 1 else base.loss_count
      let dib0 := get_daily_initial_balance daily0 balGdib
      let dib := if trade_count = 1 then balFirst - this_profit else dib0
      let rate := if dib > 0 then (balCur - dib) / dib * 100 else 0
      ⟨true, some co,
       some ⟨trade_count, net_profit, rate, loss_count, profit_count, totalFees, dib⟩⟩

/- ===================== Engine state machine (src/engine.py) ===================== -/

/-- The state-machine enumeration declared in `Engine.__init__`
(src/engine.py lines 39-57). -/
inductive EState
  | waiting
  | breakout_up_wait_fall
  | holding_short
  | short_stop_loss_wait_fall
  | short_below_mid_wait
  | short_wait_profit
  | short_profit_taken
  | breakdown_dn_wait_bounce
  | holding_long
  | long_stop_loss_wait_bounce
  | long_above_mid_wait
  | long_wait_profit
  | long_profit_taken
deriving DecidableEq

/-- Observables of one `_place_short_order` / `_place_long_order` call: the
boolean return value, the updated `last_trade_time`, whether `place_order`
was invoked, and its outcome. -/
structure OpenAttempt where
  success : Bool
  lastTradeTime : ℤ
  orderCalled : Bool
  outcome : Option OrderOutcome
deriving DecidableEq

/-- Wrapping of the final lines of `_place_short_order` / `_place_long_order`
(src/engine.py lines 534-538): the helper's return value is the truthiness of
the `place_order` result, and `last_trade_time` is updated when it is truthy. -/
def openAttemptOf (now ltt : ℤ) (oc : OrderOutcome) : OpenAttempt :=
  ⟨pyDictTruthy oc.retKeys, if pyDictTruthy oc.retKeys then now else ltt, true, some oc⟩

/-- Shallow embedding of `Engine._place_short_order` (src/engine.py
lines 515-538); the order quantity is `balance * TRADE_PERCENT` (the margin)
times leverage over price. -/
def place_short_order (now lastTradeTime : ℤ) (balance : ℚ) (leverage : ℤ)
    (env : OpenCallEnv) (tickerPrice : ℚ) (current_price : ℚ) : OpenAttempt :=
  if now - lastTradeTime < tradeCooldown then ⟨false, lastTradeTime, false, none⟩
  else if balance ≤ 0 ∨ current_price ≤ 0 ∨ leverage ≤ 0 then
    ⟨false, lastTradeTime, false, none⟩
  else
    openAttemptOf now lastTradeTime
      (place_order env now Side.short
        (balance * TRADE_PERCENT * (leverage : ℚ) / current_price)
        (some current_price) tickerPrice)

/-- Shallow embedding of `Engine._place_long_order` (src/engine.py
lines 540-563). -/
def place_long_order (now lastTradeTime : ℤ) (balance : ℚ) (leverage : ℤ)
    (env : OpenCallEnv) (tickerPrice : ℚ) (current_price : ℚ) : OpenAttempt :=
  if now - lastTradeTime < tradeCooldown then ⟨false, lastTradeTime, false, none⟩
  else if balance ≤ 0 ∨ current_price ≤ 0 ∨ leverage ≤ 0 then
    ⟨false, lastTradeTime, false, none⟩
  else
    openAttemptOf now lastTradeTime
      (place_order env now Side.long
        (balance * TRADE_PERCENT * (leverage : ℚ) / current_price)
        (some current_price) tickerPrice)

/-- External context of one evaluation of `_handle_state_transitions`: the
clock, account data, remote-call behaviour and the database rows the close
path reads. -/
structure StepEnv where
  now : ℤ
  balance : ℚ
  leverage : ℤ
  oenv : OpenCallEnv
  openTicker : ℚ
  pos : Option Position
  cenv : CloseCallEnv
  daily0 : Option DailyRow
  totalFees : ℚ
  balGdib : ℚ
  balFirst : ℚ
  balCur : ℚ
deriving DecidableEq

/-- Observables of one evaluation of `_handle_state_transitions`: the state
after the call, the updated `last_trade_time`, and which side effects
happened (order helper invoked, remote order placed, position written, trade
appended, daily ledger upserted). -/
structure StepResult where
  state : EState
  lastTradeTime : ℤ
  openAttempted : Bool
  openCalled : Bool
  openedPos : Option Position
  closeAttempted : Bool
  closeCalled : Bool
  tradeAdded : Bool
  ledgerUpdated : Bool
deriving DecidableEq

/-- A transition that only re-marks the state (no orders, no writes). -/
def mark (target : EState) (ltt : ℤ) : StepResult :=
  ⟨target, ltt, false, false, none, false, false, false, false⟩

/-- Result of a branch that ran an open-order helper: the state advances to
`target` exactly when the helper returned a truthy value. -/
def afterOpen (s target : EState) (a : OpenAttempt) : StepResult :=
  ⟨if a.success then target else s, a.lastTradeTime, true, a.orderCalled,
   a.outcome.bind (fun o => o.posSet), false, false,
   (a.outcome.map (fun o => o.tradeAdded)).getD false, false⟩

/-- Result of a branch that ran `close_and_update_profit`: the state advances
to `target` exactly when it returned `True`. -/
def afterClose (s target : EState) (c : CloseUpdate) (ltt : ℤ) : StepResult :=
  ⟨if c.success then target else s, ltt, false, false, none, true,
   (c.closeOut.map (fun o => o.orderCalled)).getD false,
   (c.closeOut.map (fun o => o.tradeAdded)).getD false,
   c.stored.isSome⟩

/-- The `close_and_update_profit` call made from a transition branch of
`_handle_state_transitions`, with its inputs drawn from the step context. -/
def stepClose (E : StepEnv) (current_price : ℚ) : CloseUpdate :=
  close_and_update_profit E.pos E.cenv current_price E.daily0 E.totalFees
    E.balGdib E.balFirst E.balCur

/-- Shallow embedding of `Engine._handle_state_transitions` (src/engine.py
lines 358-513).  The Python method is a chain of guarded blocks whose taken
branches all `return`; a block whose guard fails falls through to the next,
so the method flattens to this `if`-chain in source order. -/
def handle_state_transitions (E : StepEnv) (s : EState) (ltt : ℤ)
    (close_price current_price up mid dn : ℚ) : StepResult :=
  if s = EState.waiting ∧ close_price > up then
    mark EState.breakout_up_wait_fall ltt
  else if s = EState.breakout_up_wait_fall ∧ close_price ≤ up then
    if close_price < mid then mark s ltt
    else afterOpen s EState.holding_short
      (place_short_order E.now ltt E.balance E.leverage E.oenv E.openTicker current_price)
  else if s = EState.short_stop_loss_wait_fall ∧ close_price ≤ up then
    if close_price < mid then mark s ltt
    else afterOpen s EState.holding_short
      (place_short_order E.now ltt E.balance E.leverage E.oenv E.openTicker current_price)
  else if s = EState.holding_short ∧ close_price > up then
    afterClose s EState.short_stop_loss_wait_fall (stepClose E current_price) ltt
  else if s = EState.holding_short ∧ close_price < mid then
    mark EState.short_below_mid_wait ltt
  else if s = EState.short_below_mid_wait ∧ close_price > mid then
    afterClose s EState.short_profit_taken (stepClose E current_price) ltt
  else if s = EState.short_below_mid_wait ∧ close_price < dn then
    mark EState.short_wait_profit ltt
  else if s = EState.waiting ∧ close_price < dn then
    mark EState.breakdown_dn_wait_bounce ltt
  else if s = EState.breakdown_dn_wait_bounce ∧ close_price > dn then
    if close_price > mid then mark s ltt
    else afterOpen s EState.holding_long
      (place_long_order E.now ltt E.balance E.leverage E.oenv E.openTicker current_price)
  else if s = EState.long_stop_loss_wait_bounce ∧ close_price > dn then
    if close_price > mid then mark s ltt
    else afterOpen s EState.holding_long
      (place_long_order E.now ltt E.balance E.leverage E.oenv E.openTicker current_price)
  else if s = EState.holding_long ∧ close_price < dn then
    afterClose s EState.long_stop_loss_wait_bounce (stepClose E current_price) ltt
  else if s = EState.holding_long ∧ close_price > mid then
    mark EState.long_above_mid_wait ltt
  else if s = EState.long_above_mid_wait ∧ close_price > up then
    mark EState.long_wait_profit ltt
  else if s = EState.long_above_mid_wait ∧ close_price < mid then
    afterClose s EState.long_profit_taken (stepClose E current_price) ltt
  else if s = EState.short_wait_profit ∧ current_price > dn then
    afterClose s EState.waiting (stepClose E current_price) ltt
  else if s = EState.long_wait_profit ∧ current_price < up then
    afterClose s EState.waiting (stepClose E current_price) ltt
  else if s = EState.short_profit_taken then
    mark EState.waiting ltt
  else if s = EState.long_profit_taken then
    mark EState.waiting ltt
  else mark s ltt

/- ===================== Startup reconciliation (src/engine.py) ===================== -/

/-- One entry of `futures_position_information`, restricted to the fields the
engine reads. -/
structure ApiPosition where
  symbol : String
  positionAmt : ℚ
deriving DecidableEq

/-- The loop on src/engine.py lines 93-97: the first API position for the
configured symbol with a non-zero amount. -/
def findApiPosition (api : List ApiPosition) : Option ApiPosition :=
  api.find? (fun p => decide (p.symbol = SYMBOL ∧ p.positionAmt ≠ 0))

/-- Outcome of `_sync_position_with_api`: the value it returns and the
`positions` row left in the database (deleted by `close_position` on the
mismatch paths). -/
structure SyncResult where
  returned : Option Position
  dbAfter : Option Position
deriving DecidableEq

/-- Shallow embedding of `Engine._sync_position_with_api` (src/engine.py
lines 83-129). -/
def sync_position_with_api (dbPos : Option Position) (api : List ApiPosition) :
    SyncResult :=
  match dbPos, findApiPosition api with
  | some _, none => ⟨none, none⟩
  | none, some _ => ⟨none, none⟩
  | some d, some a =>
      let apiSide := if a.positionAmt > 0 then Side.long else Side.short
      if d.side ≠ apiSide then ⟨none, none⟩ else ⟨some d, some d⟩
  | none, none => ⟨none, none⟩

/-- State restoration in `Engine.__init__` (src/engine.py lines 60 and
76-81): the engine starts in `waiting` unless the synchronised position has a
side. -/
def initState (pos : Option Position) : EState :=
  match pos with
  | some p => if p.side = Side.long then EState.holding_long else EState.holding_short
  | none => EState.waiting

/- ===================== Transition guard table ===================== -/

/-- The outgoing transitions of each state with their triggering conditions,
read off the guarded branches of `_handle_state_transitions` (src/engine.py
lines 358-513): each entry is (condition value, target state).  The open
branches carry the whole branch guard including the added no-reentry check
(close below middle on the short side, above middle on the long side); the
`profit_taken` states reset unconditionally. -/
def outgoing (s : EState) (close_price current_price up mid dn : ℚ) :
    List (Bool × EState) :=
  match s with
  | EState.waiting =>
      [(decide (close_price > up), EState.breakout_up_wait_fall),
       (decide (close_price < dn), EState.breakdown_dn_wait_bounce)]
  | EState.breakout_up_wait_fall =>
      [(decide (close_price ≤ up ∧ ¬ close_price < mid), EState.holding_short)]
  | EState.short_stop_loss_wait_fall =>
      [(decide (close_price ≤ up ∧ ¬ close_price < mid), EState.holding_short)]
  | EState.holding_short =>
      [(decide (close_price > up), EState.short_stop_loss_wait_fall),
       (decide (close_price < mid), EState.short_below_mid_wait)]
  | EState.short_below_mid_wait =>
      [(decide (close_price > mid), EState.short_profit_taken),
       (decide (close_price < dn), EState.short_wait_profit)]
  | EState.short_wait_profit =>
      [(decide (current_price > dn), EState.waiting)]
  | EState.short_profit_taken => [(true, EState.waiting)]
  | EState.breakdown_dn_wait_bounce =>
      [(decide (close_price > dn ∧ ¬ close_price > mid), EState.holding_long)]
  | EState.long_stop_loss_wait_bounce =>
      [(decide (close_price > dn ∧ ¬ close_price > mid), EState.holding_long)]
  | EState.holding_long =>
      [(decide (close_price < dn), EState.long_stop_loss_wait_bounce),
       (decide (close_price > mid), EState.long_above_mid_wait)]
  | EState.long_above_mid_wait =>
      [(decide (close_price > up), EState.long_wait_profit),
       (decide (close_price < mid), EState.long_profit_taken)]
  | EState.long_wait_profit =>
      [(decide (current_price < up), EState.waiting)]
  | EState.long_profit_taken => [(true, EState.waiting)]

/- ===================== Concrete evaluation contexts ===================== -/

/-- Evaluation context in which an open transition fires while the remote
order placement raises: cooldown long expired, positive balance and leverage,
client present, `futures_create_order` raising. -/
def C1Env : StepEnv :=
  ⟨1000000, 1000, 10, ⟨false, true, 0⟩, 0, none, ⟨false, false, 0, 0⟩, none, 0, 0, 0, 0⟩

/-- Evaluation context for a close transition 500 milliseconds after the last
order: an open short position, a responsive gateway. -/
def C2Env : StepEnv :=
  ⟨1000, 0, 0, ⟨false, false, 0⟩, 0, some ⟨Side.short, 1, 105, 0⟩,
   ⟨false, false, 100, 0⟩, none, 0, 0, 0, 0⟩

/-- Evaluation context in which the open gates pass and the remote call
succeeds. -/
def C7Env : StepEnv :=
  ⟨1000000, 1000, 10, ⟨false, false, 0⟩, 0, none, ⟨false, false, 0, 0⟩, none, 0, 0, 0, 0⟩

/-- The daily row persisted by the close in the claim-C9 scenario. -/
def C9Row : DailyRow := ⟨1, 10, 10, 0, 1, 0, 100⟩

/-- Evaluation context with no local position record. -/
def C10Env : StepEnv :=
  ⟨0, 0, 0, ⟨false, false, 0⟩, 0, none, ⟨false, false, 0, 0⟩, none, 0, 0, 0, 0⟩

/- ===================== Helper lemmas ===================== -/

@[simp]
theorem mark_state (t : EState) (ltt : ℤ) : (mark t ltt).state = t := rfl

@[simp]
theorem mark_ltt (t : EState) (ltt : ℤ) : (mark t ltt).lastTradeTime = ltt := rfl

@[simp]
theorem mark_openAttempted (t : EState) (ltt : ℤ) : (mark t ltt).openAttempted = false := rfl

@[simp]
theorem mark_openCalled (t : EState) (ltt : ℤ) : (mark t ltt).openCalled = false := rfl

@[simp]
theorem mark_openedPos (t : EState) (ltt : ℤ) : (mark t ltt).openedPos = none := rfl

@[simp]
theorem mark_closeAttempted (t : EState) (ltt : ℤ) : (mark t ltt).closeAttempted = false := rfl

@[simp]
theorem mark_closeCalled (t : EState) (ltt : ℤ) : (mark t ltt).closeCalled = false := rfl

@[simp]
theorem mark_tradeAdded (t : EState) (ltt : ℤ) : (mark t ltt).tradeAdded = false := rfl

@[simp]
theorem mark_ledgerUpdated (t : EState) (ltt : ℤ) : (mark t ltt).ledgerUpdated = false := rfl

@[simp]
theorem afterOpen_state (s t : EState) (a : OpenAttempt) :
    (afterOpen s t a).state = if a.success then t else s := rfl

@[simp]
theorem afterOpen_ltt (s t : EState) (a : OpenAttempt) :
    (afterOpen s t a).lastTradeTime = a.lastTradeTime := rfl

@[simp]
theorem afterOpen_openAttempted (s t : EState) (a : OpenAttempt) :
    (afterOpen s t a).openAttempted = true := rfl

@[simp]
theorem afterOpen_openCalled (s t : EState) (a : OpenAttempt) :
    (afterOpen s t a).openCalled = a.orderCalled := rfl

@[simp]
theorem afterOpen_openedPos (s t : EState) (a : OpenAttempt) :
    (afterOpen s t a).openedPos = a.outcome.bind (fun o => o.posSet) := rfl

@[simp]
theorem afterOpen_closeAttempted (s t : EState) (a : OpenAttempt) :
    (afterOpen s t a).closeAttempted = false := rfl

@[simp]
theorem afterOpen_closeCalled (s t : EState) (a : OpenAttempt) :
    (afterOpen s t a).closeCalled = false := rfl

@[simp]
theorem afterOpen_tradeAdded (s t : EState) (a : OpenAttempt) :
    (afterOpen s t a).tradeAdded = (a.outcome.map (fun o => o.tradeAdded)).getD false := rfl

@[simp]
theorem afterOpen_ledgerUpdated (s t : EState) (a : OpenAttempt) :
    (afterOpen s t a).ledgerUpdated = false := rfl

@[simp]
theorem afterClose_state (s t : EState) (c : CloseUpdate) (ltt : ℤ) :
    (afterClose s t c ltt).state = if c.success then t else s := rfl

@[simp]
theorem afterClose_ltt (s t : EState) (c : CloseUpdate) (ltt : ℤ) :
    (afterClose s t c ltt).lastTradeTime = ltt := rfl

@[simp]
theorem afterClose_openAttempted (s t : EState) (c : CloseUpdate) (ltt : ℤ) :
    (afterClose s t c ltt).openAttempted = false := rfl

@[simp]
theorem afterClose_openCalled (s t : EState) (c : CloseUpdate) (ltt : ℤ) :
    (afterClose s t c ltt).openCalled = false := rfl

@[simp]
theorem afterClose_openedPos (s t : EState) (c : CloseUpdate) (ltt : ℤ) :
    (afterClose s t c ltt).openedPos = none := rfl

@[simp]
theorem afterClose_closeAttempted (s t : EState) (c : CloseUpdate) (ltt : ℤ) :
    (afterClose s t c ltt).closeAttempted = true := rfl

@[simp]
theorem afterClose_closeCalled (s t : EState) (c : CloseUpdate) (ltt : ℤ) :
    (afterClose s t c ltt).closeCalled = (c.closeOut.map (fun o => o.orderCalled)).getD false := rfl

@[simp]
theorem afterClose_tradeAdded (s t : EState) (c : CloseUpdate) (ltt : ℤ) :
    (afterClose s t c ltt).tradeAdded = (c.closeOut.map (fun o => o.tradeAdded)).getD false := rfl

@[simp]
theorem afterClose_ledgerUpdated (s t : EState) (c : CloseUpdate) (ltt : ℤ) :
    (afterClose s t c ltt).ledgerUpdated = c.stored.isSome := rfl

@[simp]
theorem openAttemptOf_success (now ltt : ℤ) (oc : OrderOutcome) :
    (openAttemptOf now ltt oc).success = pyDictTruthy oc.retKeys := rfl

@[simp]
theorem openAttemptOf_ltt (now ltt : ℤ) (oc : OrderOutcome) :
    (openAttemptOf now ltt oc).lastTradeTime
      = if pyDictTruthy oc.retKeys then now else ltt := rfl

@[simp]
theorem openAttemptOf_orderCalled (now ltt : ℤ) (oc : OrderOutcome) :
    (openAttemptOf now ltt oc).orderCalled = true := rfl

@[simp]
theorem openAttemptOf_outcome (now ltt : ℤ) (oc : OrderOutcome) :
    (openAttemptOf now ltt oc).outcome = some oc := rfl

/-- Every path of `place_order` returns a non-empty Python dict, so its
return value is always truthy — including the error dict built when the
remote call raises. -/
theorem place_order_truthy (env : OpenCallEnv) (now : ℤ) (side : Side) (qty : ℚ)
    (price : Option ℚ) (tk : ℚ) :
    pyDictTruthy (place_order env now side qty price tk).retKeys = true := by
  unfold place_order pyDictTruthy
  split_ifs <;> rfl

/-- When `_place_short_order` reaches the `place_order` call, the returned
value is truthy and `last_trade_time` is set to the current time. -/
theorem place_short_order_ltt (now ltt : ℤ) (bal : ℚ) (lev : ℤ)
    (oe : OpenCallEnv) (tk cp : ℚ)
    (h : (place_short_order now ltt bal lev oe tk cp).orderCalled = true) :
    (place_short_order now ltt bal lev oe tk cp).lastTradeTime = now := by
  unfold place_short_order at h ⊢
  split_ifs at h ⊢
  simp [place_order_truthy]

/-- When `_place_long_order` reaches the `place_order` call, the returned
value is truthy and `last_trade_time` is set to the current time. -/
theorem place_long_order_ltt (now ltt : ℤ) (bal : ℚ) (lev : ℤ)
    (oe : OpenCallEnv) (tk cp : ℚ)
    (h : (place_long_order now ltt bal lev oe tk cp).orderCalled = true) :
    (place_long_order now ltt bal lev oe tk cp).lastTradeTime = now := by
  unfold place_long_order at h ⊢
  split_ifs at h ⊢
  simp [place_order_truthy]

set_option maxHeartbeats 1000000 in
/-- If an evaluation placed an open order, `last_trade_time` after the
evaluation is the evaluation's clock time. -/
theorem step_openCalled_ltt (E : StepEnv) (s : EState) (ltt : ℤ)
    (c cur u m d : ℚ)
    (h : (handle_state_transitions E s ltt c cur u m d).openCalled = true) :
    (handle_state_transitions E s ltt c cur u m d).lastTradeTime = E.now := by
  have hps : ∀ cp,
      (place_short_order E.now ltt E.balance E.leverage E.oenv E.openTicker cp).orderCalled = true →
      (place_short_order E.now ltt E.balance E.leverage E.oenv E.openTicker cp).lastTradeTime = E.now :=
    fun cp => place_short_order_ltt E.now ltt E.balance E.leverage E.oenv E.openTicker cp
  have hpl : ∀ cp,
      (place_long_order E.now ltt E.balance E.leverage E.oenv E.openTicker cp).orderCalled = true →
      (place_long_order E.now ltt E.balance E.leverage E.oenv E.openTicker cp).lastTradeTime = E.now :=
    fun cp => place_long_order_ltt E.now ltt E.balance E.leverage E.oenv E.openTicker cp
  cases s <;> simp only [handle_state_transitions] at h ⊢ <;>
    simp at h ⊢ <;> (try split_ifs at h ⊢) <;> simp_all

set_option maxHeartbeats 1000000 in
/-- Within the cooldown window no evaluation can place an open order: both
open helpers reject before calling `place_order`. -/
theorem step_cooldown_no_open (E : StepEnv) (s : EState) (ltt : ℤ)
    (c cur u m d : ℚ) (h : E.now - ltt < tradeCooldown) :
    (handle_state_transitions E s ltt c cur u m d).openCalled = false := by
  have hps : ∀ cp,
      (place_short_order E.now ltt E.balance E.leverage E.oenv E.openTicker cp).orderCalled = false := by
    intro cp; unfold place_short_order; rw [if_pos h]
  have hpl : ∀ cp,
      (place_long_order E.now ltt E.balance E.leverage E.oenv E.openTicker cp).orderCalled = false := by
    intro cp; unfold place_long_order; rw [if_pos h]
  cases s <;> simp only [handle_state_transitions] <;>
    simp <;> (try split_ifs) <;> simp [hps, hpl]

/- ===================== Claim C6 ===================== -/

/-- Claim C6: for every bar sequence of length at least the period and every
non-negative multiplier, the band of `bollinger_bands` satisfies
lower ≤ middle ≤ upper, since the standard deviation is non-negative. -/
theorem C6_band_ordered (closes : List ℚ) (period ddof : Nat) (stds : ℚ)
    (hlen : period ≤ closes.length) (hstds : 0 ≤ stds) :
    bollDnLast closes period stds ddof ≤ ((rollingMeanLast closes period : ℚ) : ℝ)
    ∧ ((rollingMeanLast closes period : ℚ) : ℝ) ≤ bollUpLast closes period stds ddof := by
  have h0 : (0 : ℝ) ≤ rollingStdLast closes period ddof := Real.sqrt_nonneg _
  have h1 : (0 : ℝ) ≤ (stds : ℝ) := by exact_mod_cast hstds
  have h2 : (0 : ℝ) ≤ rollingStdLast closes period ddof * (stds : ℝ) := mul_nonneg h0 h1
  unfold bollDnLast bollUpLast
  constructor <;> linarith

/-- Claim C6, witness: the band ordering at a concrete input. -/
theorem C6_band_ordered_witness :
    bollDnLast [1, 2, 3] 3 2 0 ≤ ((rollingMeanLast [1, 2, 3] 3 : ℚ) : ℝ)
    ∧ ((rollingMeanLast [1, 2, 3] 3 : ℚ) : ℝ) ≤ bollUpLast [1, 2, 3] 3 2 0 :=
  C6_band_ordered [1, 2, 3] 3 0 2 (by decide) (by decide)

/- ===================== Claim C3 ===================== -/

/-- Claim C3, counterexample: with closes 100,100,100 and a still-open bar at
200, tick price 300 and period 3, the gap is 50 percent — above any plausible
large-gap threshold — yet the dynamic computation does not drop the open bar:
it substitutes the tick and returns mid 500/3, while the closed-bars-only
computation the claim prescribes returns 100. -/
theorem C3_counterexample :
    calculate_boll_dynamic [100, 100, 100, 200] 300 3 = some ⟨500 / 3, 50, true⟩
    ∧ closedBarsOnlyMid [100, 100, 100, 200] 3 = 100
    ∧ (500 / 3 : ℚ) ≠ 100 := by
  norm_num [calculate_boll_dynamic, dynCalcCloses, dynPriceChangePct,
    closedBarsOnlyMid, rollingMeanLast, lastWindow]

/-- Claim C3 (amended): the dynamic policy never drops the still-open bar.
For every input whose gap percentage exceeds any threshold, the tick price is
still substituted as the close of the most recent bar and the band is
computed over the substituted series. -/
theorem C3_always_substitutes (closes : List ℚ) (tick : ℚ) (period : Nat) (θ : ℚ)
    (hgap : dynPriceChangePct closes tick > θ)
    (hlen : period ≤ closes.length) :
    calculate_boll_dynamic closes tick period
      = some ⟨rollingMeanLast (dynCalcCloses closes tick) period,
              dynPriceChangePct closes tick, true⟩ := by
  have h1 : closes.dropLast.length = closes.length - 1 := List.length_dropLast closes
  have h2 : (dynCalcCloses closes tick).length = closes.dropLast.length + 1 := by
    simp [dynCalcCloses]
  have hnot : ¬ (dynCalcCloses closes tick).length < period := by omega
  simp [calculate_boll_dynamic, hnot]

/-- Claim C3 (amended), witness: the substituted computation at the
counterexample input with threshold 10. -/
theorem C3_always_substitutes_witness :
    calculate_boll_dynamic [100, 100, 100, 200] 300 3
      = some ⟨rollingMeanLast (dynCalcCloses [100, 100, 100, 200] 300) 3,
              dynPriceChangePct [100, 100, 100, 200] 300, true⟩ :=
  C3_always_substitutes [100, 100, 100, 200] 300 3 10
    (by norm_num [dynPriceChangePct]) (by decide)

/- ===================== Claim C8 ===================== -/

/-- Claim C8: at startup reconciliation, when the database has a persisted
position but the gateway reports no live position for the symbol, the local
record is deleted and the engine starts in `waiting`. -/
theorem C8_local_position_cleared (db : Position) (api : List ApiPosition)
    (hapi : findApiPosition api = none) :
    (sync_position_with_api (some db) api).dbAfter = none
    ∧ (sync_position_with_api (some db) api).returned = none
    ∧ initState (sync_position_with_api (some db) api).returned = EState.waiting := by
  simp [sync_position_with_api, hapi, initState]

/-- Claim C8, witness: the specification's own scenario, local long position
of quantity 1 at entry 100 and an empty gateway report. -/
theorem C8_local_position_cleared_witness :
    (sync_position_with_api (some ⟨Side.long, 1, 100, 0⟩) []).dbAfter = none
    ∧ (sync_position_with_api (some ⟨Side.long, 1, 100, 0⟩) []).returned = none
    ∧ initState (sync_position_with_api (some ⟨Side.long, 1, 100, 0⟩) []).returned
        = EState.waiting :=
  C8_local_position_cleared ⟨Side.long, 1, 100, 0⟩ [] rfl

/- ===================== Claim C1 ===================== -/

/-- Claim C1: from `breakout_up_wait_fall` with close 100 inside the band
(upper 105, middle 95), the remote order placement fails
(`remoteFails = true`, so `place_order` returns an error dict, no trade is
recorded and no position is opened), yet the returned error dict is truthy
and the state machine still advances to `holding_short`. -/
theorem C1_failed_open_still_advances :
    (handle_state_transitions C1Env EState.breakout_up_wait_fall 0 100 100 105 95 90).state
        = EState.holding_short
    ∧ C1Env.oenv.remoteFails = true
    ∧ (handle_state_transitions C1Env EState.breakout_up_wait_fall 0 100 100 105 95 90).openedPos
        = none
    ∧ (handle_state_transitions C1Env EState.breakout_up_wait_fall 0 100 100 105 95 90).tradeAdded
        = false := by
  norm_num [C1Env, handle_state_transitions, place_short_order, place_order,
    openAttemptOf, pyDictTruthy, pyRound3, pyRoundHalfEven, TRADE_PERCENT, tradeCooldown]

/- ===================== Claim C2 ===================== -/

/-- Claim C2, counterexample: only 500 ms after the last order (well inside
the 60000 ms cooldown) a close transition from `short_below_mid_wait` still
places a close order at the gateway and advances to `short_profit_taken`:
`close_and_update_profit` has no cooldown gate. -/
theorem C2_counterexample :
    (1000 : ℤ) - 500 < tradeCooldown
    ∧ (handle_state_transitions C2Env EState.short_below_mid_wait 500 101 101 110 100 90).closeCalled
        = true
    ∧ (handle_state_transitions C2Env EState.short_below_mid_wait 500 101 101 110 100 90).state
        = EState.short_profit_taken := by
  simp [C2Env, handle_state_transitions, stepClose, close_and_update_profit,
      close_all, get_daily_initial_balance, tradeCooldown] <;>
    norm_num [pyRound3, pyRoundHalfEven]

/-- Claim C2 (amended): only the open-order helpers are cooldown-gated.  An
open attempt within `trade_cooldown` of the last order is rejected before any
remote call, and once an evaluation places an open order, no evaluation less
than `trade_cooldown` later can place another one. -/
theorem C2_open_cooldown :
    (∀ (now ltt : ℤ) (bal : ℚ) (lev : ℤ) (oe : OpenCallEnv) (tk cp : ℚ),
        now - ltt < tradeCooldown →
        place_short_order now ltt bal lev oe tk cp = ⟨false, ltt, false, none⟩)
    ∧ (∀ (now ltt : ℤ) (bal : ℚ) (lev : ℤ) (oe : OpenCallEnv) (tk cp : ℚ),
        now - ltt < tradeCooldown →
        place_long_order now ltt bal lev oe tk cp = ⟨false, ltt, false, none⟩)
    ∧ (∀ (E1 E2 : StepEnv) (s : EState) (ltt : ℤ) (c1 cur1 u1 m1 d1 c2 cur2 u2 m2 d2 : ℚ),
        (handle_state_transitions E1 s ltt c1 cur1 u1 m1 d1).openCalled = true →
        E2.now - E1.now < tradeCooldown →
        (handle_state_transitions E2
            (handle_state_transitions E1 s ltt c1 cur1 u1 m1 d1).state
            (handle_state_transitions E1 s ltt c1 cur1 u1 m1 d1).lastTradeTime
            c2 cur2 u2 m2 d2).openCalled = false) := by
  refine ⟨?_, ?_, ?_⟩
  · intro now ltt bal lev oe tk cp h
    unfold place_short_order
    rw [if_pos h]
  · intro now ltt bal lev oe tk cp h
    unfold place_long_order
    rw [if_pos h]
  · intro E1 E2 s ltt c1 cur1 u1 m1 d1 c2 cur2 u2 m2 d2 h1 h2
    rw [step_openCalled_ltt E1 s ltt c1 cur1 u1 m1 d1 h1]
    exact step_cooldown_no_open E2 _ E1.now c2 cur2 u2 m2 d2 h2

/-- Claim C2 (amended), witness: a concrete open attempt 500 ms after the
last order is rejected without calling the gateway. -/
theorem C2_open_cooldown_witness :
    place_short_order 1000 500 1000 10 ⟨false, false, 0⟩ 0 100 = ⟨false, 500, false, none⟩ :=
  C2_open_cooldown.1 1000 500 1000 10 ⟨false, false, 0⟩ 0 100 (by decide)

/- ===================== Claim C4 ===================== -/

/-- Claim C4: two closes on the same date, each with gross profit 10, with the
date's trade-ledger fee sum at 1 after the first close and 2 after the
second.  The claimed net profit is 10 + 10 - 2 = 18, but the persisted value
is 17: `update_daily_profit` stores the net profit in the `profit` column,
which the next close then reads back as the gross accumulator, so the first
close's fees are deducted twice. -/
theorem C4_fees_deducted_twice :
    ((close_and_update_profit (some ⟨Side.long, 1, 100, 0⟩) ⟨false, false, 110, 0⟩ 110
        ((close_and_update_profit (some ⟨Side.long, 1, 100, 0⟩) ⟨false, false, 110, 0⟩ 110
            none 1 0 0 0).stored)
        2 0 0 0).stored.map (fun r => r.profit)) = some 17
    ∧ (10 + 10 : ℚ) - 2 = 18
    ∧ (17 : ℚ) ≠ 18 := by
  norm_num [close_and_update_profit, close_all, get_daily_initial_balance,
    pyRound3, pyRoundHalfEven]

/- ===================== Claim C9 ===================== -/

/-- Claim C9, counterexample: a close with opening balance 100 and current
balance 110 records `profit_rate` 10 — the percentage
`(110 - 100) / 100 * 100` — where the claimed formula
`(current - opening) / opening` gives 1/10. -/
theorem C9_counterexample :
    (close_and_update_profit (some ⟨Side.long, 1, 100, 0⟩) ⟨false, false, 110, 0⟩ 110
        none 0 100 110 110).stored = some C9Row
    ∧ C9Row.profit_rate = 10
    ∧ ((110 : ℚ) - 100) / 100 = 1 / 10
    ∧ (10 : ℚ) ≠ 1 / 10 := by
  norm_num [close_and_update_profit, close_all, get_daily_initial_balance,
    pyRound3, pyRoundHalfEven, C9Row]

/-- Claim C9 (amended): on every realized close that reaches the ledger
update, the recorded daily profit rate is the percentage form
`(current_balance - opening_balance) / opening_balance * 100` of the claimed
ratio when the recorded opening balance is positive, and 0 whenever the
recorded opening balance is non-positive. -/
theorem C9_profit_rate_percent (pos : Position) (cenv : CloseCallEnv) (price : ℚ)
    (daily0 : Option DailyRow) (fees bg bf bc : ℚ) (row : DailyRow)
    (hrow : (close_and_update_profit (some pos) cenv price daily0 fees bg bf bc).stored
        = some row) :
    (0 < row.initial_balance →
        row.profit_rate = (bc - row.initial_balance) / row.initial_balance * 100)
    ∧ (row.initial_balance ≤ 0 → row.profit_rate = 0) := by
  simp only [close_and_update_profit] at hrow
  split at hrow
  · simp at hrow
  · simp only [CloseUpdate.mk.injEq, Option.some.injEq] at hrow
    subst hrow
    dsimp only
    constructor
    · intro h
      rw [if_pos h]
    · intro h
      rw [if_neg (not_lt.mpr h)]

/-- Claim C9 (amended), witness: the concrete close of the counterexample,
where the recorded opening balance is 100 and the recorded rate is the
percentage form. -/
theorem C9_profit_rate_percent_witness :
    C9Row.profit_rate = (110 - C9Row.initial_balance) / C9Row.initial_balance * 100 :=
  (C9_profit_rate_percent ⟨Side.long, 1, 100, 0⟩ ⟨false, false, 110, 0⟩ 110
      none 0 100 110 110 C9Row
      (by norm_num [close_and_update_profit, close_all, get_daily_initial_balance,
        pyRound3, pyRoundHalfEven, C9Row])).1
    (by norm_num [C9Row])

/- ===================== Claim C10 ===================== -/

/-- Claim C10: with no local position record, `close_and_update_profit`
returns success without contacting the gateway, appending a trade or touching
the daily ledger, so the close transitions (here `short_wait_profit` to
`waiting` on a tick above the lower band, and `holding_short` to
`short_stop_loss_wait_fall` on a close above the upper band) advance the
state machine with no remote call and no database write. -/
theorem C10_close_without_position (cenv : CloseCallEnv) (price : ℚ)
    (daily0 : Option DailyRow) (fees bg bf bc : ℚ)
    (E : StepEnv) (ltt : ℤ) (c cur u m d : ℚ)
    (hpos : E.pos = none) :
    close_and_update_profit none cenv price daily0 fees bg bf bc = ⟨true, none, none⟩
    ∧ (cur > d →
        handle_state_transitions E EState.short_wait_profit ltt c cur u m d
          = ⟨EState.waiting, ltt, false, false, none, true, false, false, false⟩)
    ∧ (c > u →
        handle_state_transitions E EState.holding_short ltt c cur u m d
          = ⟨EState.short_stop_loss_wait_fall, ltt, false, false, none, true, false, false, false⟩) := by
  refine ⟨rfl, fun h => ?_, fun h => ?_⟩ <;>
    simp [handle_state_transitions, stepClose, hpos, close_and_update_profit, h,
      afterClose, mark]

/-- Claim C10, witness: the tick-exit transition at a concrete input with no
local position. -/
theorem C10_close_without_position_witness :
    handle_state_transitions C10Env EState.short_wait_profit 0 110 100 105 95 90
      = ⟨EState.waiting, 0, false, false, none, true, false, false, false⟩ :=
  (C10_close_without_position ⟨false, false, 0, 0⟩ 0 none 0 0 0 0 C10Env 0
      110 100 105 95 90 rfl).2.1 (by decide)

/- ===================== Claim C7 ===================== -/

/-- Claim C7: from `breakout_up_wait_fall` or `short_stop_loss_wait_fall`,
when the order gates pass (cooldown elapsed, positive balance, price and
leverage, client present, remote call succeeding, quantity above the
minimum), a short position is opened and the state becomes `holding_short`
exactly when close ≤ upper and close ≥ middle; and when close ≤ upper but
close < middle, no order helper is even invoked and the state is unchanged. -/
theorem C7_short_open_iff (E : StepEnv) (s : EState) (ltt : ℤ) (c cur u m d : ℚ)
    (hs : s = EState.breakout_up_wait_fall ∨ s = EState.short_stop_loss_wait_fall)
    (hcool : ¬ E.now - ltt < tradeCooldown)
    (hbal : ¬ (E.balance ≤ 0 ∨ cur ≤ 0 ∨ E.leverage ≤ 0))
    (hclient : E.oenv.clientNone = false)
    (hremote : E.oenv.remoteFails = false)
    (hqty : ¬ pyRound3 (E.balance * TRADE_PERCENT * (E.leverage : ℚ) / cur) < 1 / 1000) :
    ((handle_state_transitions E s ltt c cur u m d).state = EState.holding_short
        ∧ (handle_state_transitions E s ltt c cur u m d).openedPos.isSome = true
      ↔ c ≤ u ∧ m ≤ c)
    ∧ (c ≤ u → c < m →
        (handle_state_transitions E s ltt c cur u m d).state = s
        ∧ (handle_state_transitions E s ltt c cur u m d).openAttempted = false) := by
  have hpo : place_order E.oenv E.now Side.short
      (E.balance * TRADE_PERCENT * (E.leverage : ℚ) / cur) (some cur) E.openTicker
      = ⟨["orderId", "avgPrice"], true,
         some ⟨Side.short, pyRound3 (E.balance * TRADE_PERCENT * (E.leverage : ℚ) / cur),
               (if E.oenv.avgPrice = 0 then cur else E.oenv.avgPrice), E.now⟩⟩ := by
    unfold place_order
    rw [hclient, if_neg Bool.false_ne_true, if_neg hqty, hremote,
      if_neg Bool.false_ne_true]
  have hps : place_short_order E.now ltt E.balance E.leverage E.oenv E.openTicker cur
      = ⟨true, E.now, true,
         some ⟨["orderId", "avgPrice"], true,
               some ⟨Side.short, pyRound3 (E.balance * TRADE_PERCENT * (E.leverage : ℚ) / cur),
                     (if E.oenv.avgPrice = 0 then cur else E.oenv.avgPrice), E.now⟩⟩⟩ := by
    unfold place_short_order
    rw [if_neg hcool, if_neg hbal, hpo]
    simp [openAttemptOf, pyDictTruthy]
  have hneq : s ≠ EState.holding_short := by
    rcases hs with rfl | rfl <;> simp
  have hshape : handle_state_transitions E s ltt c cur u m d
      = if c ≤ u then
          (if c < m then mark s ltt
           else afterOpen s EState.holding_short
             (place_short_order E.now ltt E.balance E.leverage E.oenv E.openTicker cur))
        else mark s ltt := by
    rcases hs with rfl | rfl <;> simp [handle_state_transitions]
  rw [hshape]
  constructor
  · constructor
    · rintro ⟨h1, h2⟩
      by_cases hcu : c ≤ u
      · rw [if_pos hcu] at h1 h2
        by_cases hcm : c < m
        · rw [if_pos hcm] at h1
          simp only [mark_state] at h1
          exact absurd h1 hneq
        · exact ⟨hcu, not_lt.mp hcm⟩
      · rw [if_neg hcu] at h1
        simp only [mark_state] at h1
        exact absurd h1 hneq
    · rintro ⟨hcu, hmc⟩
      rw [if_pos hcu, if_neg (not_lt.mpr hmc), hps]
      exact ⟨by simp, by simp⟩
  · intro hcu hcm
    rw [if_pos hcu, if_pos hcm]
    exact ⟨by simp, by simp⟩

/-- Claim C7, witness: with close 100 between middle 95 and upper 105, the
machine opens a short and moves to `holding_short`. -/
theorem C7_short_open_iff_witness :
    (handle_state_transitions C7Env EState.breakout_up_wait_fall 0 100 100 105 95 90).state
      = EState.holding_short :=
  (((C7_short_open_iff C7Env EState.breakout_up_wait_fall 0 100 100 105 95 90
        (Or.inl rfl) (by decide) (by decide) rfl rfl
        (by norm_num [C7Env, pyRound3, pyRoundHalfEven, TRADE_PERCENT])).1).mpr
    (by norm_num)).1

/- ===================== Claim C5 ===================== -/

/-- Every evaluation of `_handle_state_transitions` either leaves the state
unchanged or moves to the target of an outgoing transition whose triggering
condition holds: the step function agrees with the guard table. -/
theorem step_matches_guard (E : StepEnv) (s : EState) (ltt : ℤ) (c cur u m d : ℚ) :
    (handle_state_transitions E s ltt c cur u m d).state = s
    ∨ (true, (handle_state_transitions E s ltt c cur u m d).state)
        ∈ outgoing s c cur u m d := by
  cases s <;> simp only [handle_state_transitions] <;> simp [outgoing] <;>
    (try split_ifs) <;> simp_all <;>
    (try (cases hsucc : (stepClose E cur).success <;> simp [hsucc]))

/-- Claim C5: with an ordered band (lower ≤ middle ≤ upper), the triggering
conditions of each state's outgoing transitions are pairwise exclusive — no
two distinct transitions match the same (close, tick, band) input — and each
evaluation of the (deterministic) step function takes at most one of them:
it either keeps the state or moves to the target of a matching guard. -/
theorem C5_transitions_exclusive :
    (∀ (s : EState) (c cur u m d : ℚ), d ≤ m → m ≤ u →
        List.Pairwise (fun g1 g2 => ¬ (g1.1 = true ∧ g2.1 = true))
          (outgoing s c cur u m d))
    ∧ (∀ (E : StepEnv) (s : EState) (ltt : ℤ) (c cur u m d : ℚ),
        (handle_state_transitions E s ltt c cur u m d).state = s
        ∨ (true, (handle_state_transitions E s ltt c cur u m d).state)
            ∈ outgoing s c cur u m d) := by
  constructor
  · intro s c cur u m d hdm hmu
    cases s <;> simp [outgoing] <;> intros <;> linarith
  · exact step_matches_guard

/-- Claim C5, witness: the guard table of `holding_short` at a concrete
ordered band. -/
theorem C5_transitions_exclusive_witness :
    List.Pairwise (fun g1 g2 => ¬ (g1.1 = true ∧ g2.1 = true))
      (outgoing EState.holding_short 100 100 105 95 90) :=
  C5_transitions_exclusive.1 EState.holding_short 100 100 105 95 90
    (by decide) (by decide)

end BinanceTrading
